import Mathlib

/-!
Verification of the in-memory todo store of the Hackathon Phase-II repository
(src/src/main.py).  The Task entity and the TodoStore operations are embedded
shallowly: Python strings become Lean strings, str.strip() becomes pyStrip,
the insertion-ordered tasks dict becomes an association list, raised
exceptions become an Except value returned together with the store state
after the call (so that in-place mutations that happened before an exception
are kept, exactly as in Python).
-/

namespace TodoApp

/-- Whitespace test used by the model of Python str.strip(). -/
def isWS (c : Char) : Bool := c.isWhitespace

/-- Model of Python str.strip(): remove leading and trailing whitespace. -/
def pyStrip (s : String) : String :=
  String.mk (List.rdropWhile isWS (List.dropWhile isWS s.data))

/-- Status enumeration from class TaskStatus. -/
inductive TaskStatus where
  | incomplete
  | complete
deriving DecidableEq, Repr

/-- Task entity from class Task; created_at is an abstract clock value
supplied by the caller of add, standing for datetime.now(). -/
structure Task where
  id : Nat
  title : String
  description : String
  status : TaskStatus
  created_at : Nat
deriving DecidableEq, Repr

/-- Model of Task.\_\_init\_\_: description defaults to the empty string when
the argument is None or empty (Python truthiness); status starts INCOMPLETE. -/
def Task.initTask (task_id : Nat) (title : String) (description : Option String)
    (now : Nat) : Task :=
  { id := task_id
    title := title
    description :=
      match description with
      | some d => if d ≠ "" then d else ""
      | none => ""
    status := TaskStatus.incomplete
    created_at := now }

/-- Error taxonomy: ValueError raised by validation, and TaskNotFound. -/
inductive StoreError where
  | validation (msg : String)
  | notFound (msg : String)
deriving DecidableEq, Repr

deriving instance DecidableEq for Except

/-- The store: tasks is the insertion-ordered dict {id: Task}, next_id the
counter, as in TodoStore.\_\_init\_\_. -/
structure TodoStore where
  tasks : List (Nat × Task)
  next_id : Nat
deriving DecidableEq, Repr

/-- The empty store produced by TodoStore.\_\_init\_\_. -/
def initStore : TodoStore := { tasks := [], next_id := 1 }

/-- Python dict lookup on the association list (first entry with the key). -/
def lookupTask (m : List (Nat × Task)) (k : Nat) : Option Task :=
  match m.find? (fun p => p.1 = k) with
  | some p => some p.2
  | none => none

/-- Python dict assignment: replace in place when the key is present
(keeping its position), append otherwise. -/
def dictInsert (m : List (Nat × Task)) (k : Nat) (v : Task) : List (Nat × Task) :=
  if m.any (fun p => p.1 = k) then
    m.map (fun p => if p.1 = k then (k, v) else p)
  else
    m ++ [(k, v)]

/-- Model of TodoStore._validate_title. -/
def validate_title (title : String) : Except StoreError Unit :=
  let t := if title ≠ "" then pyStrip title else ""
  if t = "" then Except.error (StoreError.validation "Title cannot be empty")
  else if t.length > 100 then
    Except.error (StoreError.validation "Title exceeds 100 characters")
  else Except.ok ()

/-- Model of TodoStore._validate_description: the check is on the raw
length of the argument, before any trimming. -/
def validate_description (description : String) : Except StoreError Unit :=
  if description.length > 500 then
    Except.error (StoreError.validation "Description exceeds 500 characters")
  else Except.ok ()

/-- Model of TodoStore.add_task.  The second component is the store state
after the call, unchanged when an error is raised. -/
def add_task (s : TodoStore) (title : String) (description : Option String)
    (now : Nat) : Except StoreError Task × TodoStore :=
  match validate_title title with
  | Except.error e => (Except.error e, s)
  | Except.ok _ =>
    let descCheck : Except StoreError Unit :=
      match description with
      | some d => if d ≠ "" then validate_description d else Except.ok ()
      | none => Except.ok ()
    match descCheck with
    | Except.error e => (Except.error e, s)
    | Except.ok _ =>
      let descArg : Option String :=
        match description with
        | some d => if d ≠ "" then some (pyStrip d) else none
        | none => none
      let task := Task.initTask s.next_id (pyStrip title) descArg now
      (Except.ok task,
        { tasks := dictInsert s.tasks s.next_id task, next_id := s.next_id + 1 })

/-- Model of TodoStore.get_task (read-only, so only the Except value). -/
def get_task (s : TodoStore) (task_id : Nat) : Except StoreError Task :=
  match lookupTask s.tasks task_id with
  | none =>
    Except.error (StoreError.notFound
      ("Task ID " ++ toString task_id ++ " not found"))
  | some t => Except.ok t

/-- Model of TodoStore.list_tasks: the dict values in insertion order. -/
def list_tasks (s : TodoStore) : List Task := s.tasks.map Prod.snd

/-- Model of TodoStore.update_task.  Mirrors the Python control flow: the
missing-fields check, then lookup, then the title branch (entered only for a
truthy title), whose assignment lands in the store before the description is
validated, so a description failure keeps the already-updated title. -/
def update_task (s : TodoStore) (task_id : Nat)
    (title description : Option String) : Except StoreError Task × TodoStore :=
  if title = none ∧ description = none then
    (Except.error (StoreError.validation "Provide new title or --desc <description>"), s)
  else
    match lookupTask s.tasks task_id with
    | none =>
      (Except.error (StoreError.notFound
        ("Task ID " ++ toString task_id ++ " not found")), s)
    | some task0 =>
      let titlePhase : Except StoreError Task :=
        match title with
        | some t =>
          if t ≠ "" then
            match validate_title t with
            | Except.error e => Except.error e
            | Except.ok _ => Except.ok { task0 with title := pyStrip t }
          else Except.ok task0
        | none => Except.ok task0
      match titlePhase with
      | Except.error e => (Except.error e, s)
      | Except.ok task1 =>
        let s1 : TodoStore := { s with tasks := dictInsert s.tasks task_id task1 }
        match description with
        | some d =>
          match validate_description d with
          | Except.error e => (Except.error e, s1)
          | Except.ok _ =>
            let task2 := { task1 with description := pyStrip d }
            (Except.ok task2, { s1 with tasks := dictInsert s1.tasks task_id task2 })
        | none => (Except.ok task1, s1)

/-- Model of TodoStore.delete_task: removes the entry, next_id untouched. -/
def delete_task (s : TodoStore) (task_id : Nat) :
    Except StoreError Unit × TodoStore :=
  match lookupTask s.tasks task_id with
  | none =>
    (Except.error (StoreError.notFound
      ("Task ID " ++ toString task_id ++ " not found")), s)
  | some _ =>
    (Except.ok (), { s with tasks := s.tasks.filter (fun p => p.1 ≠ task_id) })

/-- Model of TodoStore.complete_task: in-place mark_complete. -/
def complete_task (s : TodoStore) (task_id : Nat) :
    Except StoreError Task × TodoStore :=
  match lookupTask s.tasks task_id with
  | none =>
    (Except.error (StoreError.notFound
      ("Task ID " ++ toString task_id ++ " not found")), s)
  | some task =>
    let t := { task with status := TaskStatus.complete }
    (Except.ok t, { s with tasks := dictInsert s.tasks task_id t })

/-- Model of TodoStore.incomplete_task: in-place mark_incomplete. -/
def incomplete_task (s : TodoStore) (task_id : Nat) :
    Except StoreError Task × TodoStore :=
  match lookupTask s.tasks task_id with
  | none =>
    (Except.error (StoreError.notFound
      ("Task ID " ++ toString task_id ++ " not found")), s)
  | some task =>
    let t := { task with status := TaskStatus.incomplete }
    (Except.ok t, { s with tasks := dictInsert s.tasks task_id t })

/-- One store operation, for reasoning about arbitrary call sequences. -/
inductive Op where
  | add (title : String) (description : Option String) (now : Nat)
  | update (task_id : Nat) (title description : Option String)
  | delete (task_id : Nat)
  | complete (task_id : Nat)
  | incomplete (task_id : Nat)
deriving DecidableEq, Repr

/-- The store state after one operation (errors leave the returned state). -/
def applyOp (s : TodoStore) (op : Op) : TodoStore :=
  match op with
  | Op.add t d n => (add_task s t d n).2
  | Op.update i t d => (update_task s i t d).2
  | Op.delete i => (delete_task s i).2
  | Op.complete i => (complete_task s i).2
  | Op.incomplete i => (incomplete_task s i).2

/-- The store state after a sequence of operations. -/
def runOps (s : TodoStore) (ops : List Op) : TodoStore := ops.foldl applyOp s

/-- The ids returned by the successful add calls of a sequence, in order. -/
def addedIds : TodoStore → List Op → List Nat
  | _, [] => []
  | s, op :: ops =>
    match op with
    | Op.add t d n =>
      match (add_task s t d n).1 with
      | Except.ok task => task.id :: addedIds (applyOp s op) ops
      | Except.error _ => addedIds (applyOp s op) ops
    | _ => addedIds (applyOp s op) ops

/-! Helper lemmas about the strip model. -/

/-- Stripping an already left-stripped list leaves it unchanged. -/
theorem dropWhile_rdropWhile_self {p : Char → Bool} {l : List Char}
    (h : List.dropWhile p l = l) :
    List.dropWhile p (List.rdropWhile p l) = List.rdropWhile p l := by
  rcases heq : List.rdropWhile p l with _ | ⟨a, t⟩
  · simp
  · obtain ⟨u, hu⟩ := List.rdropWhile_prefix p l
    rw [heq, List.cons_append] at hu
    have hpa : p a = false := by
      by_contra hcontra
      have hpa' : p a = true := by simpa using hcontra
      rw [← hu] at h
      rw [List.dropWhile_cons_of_pos hpa'] at h
      have hlen : (List.dropWhile p (t ++ u)).length ≤ (t ++ u).length :=
        (List.dropWhile_suffix p).length_le
      rw [h] at hlen
      simp at hlen
    rw [List.dropWhile_cons_of_neg (by simp [hpa])]

/-- pyStrip is idempotent, as Python strip is. -/
theorem pyStrip_idem (s : String) : pyStrip (pyStrip s) = pyStrip s := by
  rcases s with ⟨l⟩
  show String.mk (List.rdropWhile isWS (List.dropWhile isWS
      (List.rdropWhile isWS (List.dropWhile isWS l)))) = _
  rw [dropWhile_rdropWhile_self (List.dropWhile_idempotent _ _),
    List.rdropWhile_idempotent]
  rfl

/-- pyStrip never lengthens a string. -/
theorem pyStrip_length_le (s : String) : (pyStrip s).length ≤ s.length := by
  rcases s with ⟨l⟩
  show (List.rdropWhile isWS (List.dropWhile isWS l)).length ≤ l.length
  exact le_trans (List.rdropWhile_prefix isWS _).length_le
    (List.dropWhile_suffix isWS).length_le

/-- A nonempty string has positive length. -/
theorem length_pos_of_ne_empty {s : String} (h : s ≠ "") : 0 < s.length := by
  rcases s with ⟨l⟩
  rcases l with _ | ⟨a, t⟩
  · simp at h
  · simp [String.length]

/-- The Python truthiness guard in _validate_title is harmless: stripping the
empty string yields the empty string. -/
theorem validate_title_guard (t : String) :
    (if t ≠ "" then pyStrip t else "") = pyStrip t := by
  by_cases h : t = ""
  · subst h; rfl
  · simp [h]

/-- Unfolded form of _validate_title after removing the truthiness guard. -/
theorem validate_title_eq (t : String) :
    validate_title t =
      (if pyStrip t = "" then
        Except.error (StoreError.validation "Title cannot be empty")
      else if (pyStrip t).length > 100 then
        Except.error (StoreError.validation "Title exceeds 100 characters")
      else Except.ok ()) := by
  unfold validate_title
  rw [validate_title_guard]

/-- A title passes validation exactly when its trimmed form is nonempty and
at most 100 characters long. -/
theorem validate_title_ok_iff (t : String) :
    validate_title t = Except.ok () ↔
      pyStrip t ≠ "" ∧ (pyStrip t).length ≤ 100 := by
  rw [validate_title_eq]
  by_cases h1 : pyStrip t = "" <;> by_cases h2 : (pyStrip t).length > 100 <;>
    simp [h1, h2] <;> omega

/-! Helper lemmas about the dict model. -/

/-- A successful lookup means the key test succeeds somewhere in the list. -/
theorem any_of_lookup {m : List (Nat × Task)} {k : Nat} {v : Task}
    (h : lookupTask m k = some v) : m.any (fun p => p.1 = k) = true := by
  unfold lookupTask at h
  rcases hf : m.find? (fun p => p.1 = k) with _ | q
  · rw [hf] at h; simp at h
  · have hq := List.find?_some hf
    have hm := List.mem_of_find?_eq_some hf
    exact List.any_eq_true.mpr ⟨q, hm, hq⟩

/-- A successful lookup exhibits a member of the list. -/
theorem mem_of_lookup {m : List (Nat × Task)} {k : Nat} {v : Task}
    (h : lookupTask m k = some v) : (k, v) ∈ m := by
  unfold lookupTask at h
  rcases hf : m.find? (fun p => p.1 = k) with _ | q
  · rw [hf] at h; simp at h
  · rw [hf] at h
    have hq := List.find?_some hf
    have hm := List.mem_of_find?_eq_some hf
    simp at h hq
    rcases q with ⟨qk, qv⟩
    simp at hq
    subst hq
    simp at h
    subst h
    exact hm

/-- Mapping a function that fixes every member is the identity. -/
theorem map_id_of_mem {m : List (Nat × Task)} {f : Nat × Task → Nat × Task}
    (h : ∀ p ∈ m, f p = p) : m.map f = m :=
  (List.map_congr_left h).trans (List.map_id m)

/-- The replacement map of dictInsert fixes a list with no matching key. -/
theorem map_replace_of_not_any {m : List (Nat × Task)} {k : Nat} {v : Task}
    (ha : ¬ m.any (fun p => p.1 = k) = true) :
    m.map (fun p => if p.1 = k then (k, v) else p) = m := by
  apply map_id_of_mem
  intro p hp
  rw [if_neg]
  intro hk
  exact ha (List.any_eq_true.mpr ⟨p, hp, by simpa using hk⟩)

/-- Finding a matching key in the replacement map yields the new pair. -/
theorem find_map_self {m : List (Nat × Task)} {k : Nat} {v : Task}
    (ha : m.any (fun p => p.1 = k) = true) :
    List.find? (fun p => p.1 = k)
      (m.map (fun p => if p.1 = k then (k, v) else p)) = some (k, v) := by
  induction m with
  | nil => simp at ha
  | cons q rest ih =>
    by_cases hq : q.1 = k
    · rw [List.map_cons, if_pos hq, List.find?_cons_of_pos _ (by simp)]
    · rw [List.map_cons, if_neg hq, List.find?_cons_of_neg _ (by simpa using hq)]
      apply ih
      rcases List.any_eq_true.mp ha with ⟨x, hx, hxk⟩
      rcases List.mem_cons.mp hx with h1 | h2
      · subst h1; exact absurd (by simpa using hxk) hq
      · exact List.any_eq_true.mpr ⟨x, h2, hxk⟩

/-- The replacement map of dictInsert is invisible to other keys. -/
theorem find_map_ne {m : List (Nat × Task)} {k j : Nat} {v : Task}
    (hjk : j ≠ k) :
    List.find? (fun p => p.1 = j)
      (m.map (fun p => if p.1 = k then (k, v) else p)) =
      List.find? (fun p => p.1 = j) m := by
  induction m with
  | nil => rfl
  | cons q rest ih =>
    by_cases hq : q.1 = k
    · rw [List.map_cons, if_pos hq,
        List.find?_cons_of_neg _ (by simpa using Ne.symm hjk),
        List.find?_cons_of_neg _ (by simp [hq]; exact Ne.symm hjk)]
      exact ih
    · by_cases hqj : q.1 = j
      · rw [List.map_cons, if_neg hq,
          List.find?_cons_of_pos _ (by simpa using hqj),
          List.find?_cons_of_pos _ (by simpa using hqj)]
      · rw [List.map_cons, if_neg hq,
          List.find?_cons_of_neg _ (by simpa using hqj),
          List.find?_cons_of_neg _ (by simpa using hqj)]
        exact ih

/-- An absent key is found nowhere. -/
theorem find_none_of_not_any {m : List (Nat × Task)} {k : Nat}
    (ha : ¬ m.any (fun p => p.1 = k) = true) :
    m.find? (fun p => p.1 = k) = none := by
  rw [List.find?_eq_none]
  intro x hx
  simp only [decide_eq_true_eq]
  intro hk
  exact ha (List.any_eq_true.mpr ⟨x, hx, by simpa using hk⟩)

/-- Looking up the key just written by dictInsert yields the new value. -/
theorem lookup_dictInsert_self (m : List (Nat × Task)) (k : Nat) (v : Task) :
    lookupTask (dictInsert m k v) k = some v := by
  unfold dictInsert
  by_cases ha : m.any (fun p => p.1 = k) = true
  · rw [if_pos ha]
    unfold lookupTask
    rw [find_map_self ha]
  · rw [if_neg ha]
    unfold lookupTask
    rw [List.find?_append, find_none_of_not_any ha]
    simp

/-- dictInsert does not disturb lookups of other keys. -/
theorem lookup_dictInsert_ne (m : List (Nat × Task)) (k : Nat) (v : Task)
    {j : Nat} (hjk : j ≠ k) :
    lookupTask (dictInsert m k v) j = lookupTask m j := by
  unfold dictInsert
  by_cases ha : m.any (fun p => p.1 = k) = true
  · rw [if_pos ha]
    unfold lookupTask
    rw [find_map_ne hjk]
  · rw [if_neg ha]
    unfold lookupTask
    rw [List.find?_append]
    rcases hf : m.find? (fun p => p.1 = j) with _ | q
    · rw [hf]
      have : List.find? (fun p => p.1 = j) [(k, v)] = none := by
        rw [List.find?_cons_of_neg _ (by simpa using Ne.symm hjk)]
        rfl
      rw [this]
      rfl
    · rw [hf]
      rfl

/-- Every member of a dictInsert result is an old member or the new pair. -/
theorem mem_dictInsert {m : List (Nat × Task)} {k : Nat} {v : Task}
    {q : Nat × Task} (h : q ∈ dictInsert m k v) : q ∈ m ∨ q = (k, v) := by
  unfold dictInsert at h
  by_cases ha : m.any (fun p => p.1 = k) = true
  · rw [if_pos ha] at h
    rcases List.mem_map.mp h with ⟨p, hp, hpq⟩
    by_cases hk : p.1 = k
    · rw [if_pos hk] at hpq; right; exact hpq.symm
    · rw [if_neg hk] at hpq; left; exact hpq ▸ hp
  · rw [if_neg ha] at h
    rcases List.mem_append.mp h with h1 | h2
    · left; exact h1
    · right; simpa using h2

/-- Writing a key that is present keeps the key sequence unchanged. -/
theorem keys_dictInsert_of_any {m : List (Nat × Task)} {k : Nat} (v : Task)
    (ha : m.any (fun p => p.1 = k) = true) :
    (dictInsert m k v).map Prod.fst = m.map Prod.fst := by
  unfold dictInsert
  rw [if_pos ha, List.map_map]
  apply List.map_congr_left
  intro p _
  by_cases hk : p.1 = k
  · simp [hk]
  · simp [hk]

/-- Writing a fresh key appends it to the key sequence. -/
theorem keys_dictInsert_of_not_any {m : List (Nat × Task)} {k : Nat} (v : Task)
    (ha : ¬ m.any (fun p => p.1 = k) = true) :
    (dictInsert m k v).map Prod.fst = m.map Prod.fst ++ [k] := by
  unfold dictInsert
  rw [if_neg ha]
  simp

/-- Writing the same key and value twice is the same as writing once. -/
theorem dictInsert_dictInsert (m : List (Nat × Task)) (k : Nat) (v : Task) :
    dictInsert (dictInsert m k v) k v = dictInsert m k v := by
  unfold dictInsert
  by_cases ha : m.any (fun p => p.1 = k) = true
  · rw [if_pos ha]
    have hmem : (m.map (fun p => if p.1 = k then (k, v) else p)).any
        (fun p => p.1 = k) = true := by
      rcases List.any_eq_true.mp ha with ⟨p, hp, hk⟩
      exact List.any_eq_true.mpr
        ⟨(k, v), List.mem_map.mpr ⟨p, hp, by simp [show p.1 = k by simpa using hk]⟩,
          by simp⟩
    rw [if_pos hmem, List.map_map]
    apply List.map_congr_left
    intro p _
    by_cases hk : p.1 = k
    · simp [hk]
    · simp [hk]
  · rw [if_neg ha]
    have hmem : (m ++ [(k, v)]).any (fun p => p.1 = k) = true :=
      List.any_eq_true.mpr ⟨(k, v), by simp, by simp⟩
    rw [if_pos hmem, List.map_append, map_replace_of_not_any ha]
    simp

/-! Characterization lemmas: each operation in each configuration. -/

/-- add_task with an invalid title. -/
theorem add_title_err {t : String} {e : StoreError}
    (s : TodoStore) (d : Option String) (n : Nat)
    (hv : validate_title t = Except.error e) :
    add_task s t d n = (Except.error e, s) := by
  simp [add_task, hv]

/-- add_task with a valid title and an invalid nonempty description. -/
theorem add_desc_err {t dd : String} {e : StoreError} (s : TodoStore) (n : Nat)
    (hv : validate_title t = Except.ok ()) (hdd : dd ≠ "")
    (hvd : validate_description dd = Except.error e) :
    add_task s t (some dd) n = (Except.error e, s) := by
  simp [add_task, hv, hdd, hvd]

/-- add_task with a valid title and no description. -/
theorem add_ok_none {t : String} (s : TodoStore) (n : Nat)
    (hv : validate_title t = Except.ok ()) :
    add_task s t none n =
      (Except.ok (Task.initTask s.next_id (pyStrip t) none n),
        { tasks := dictInsert s.tasks s.next_id (Task.initTask s.next_id (pyStrip t) none n),
          next_id := s.next_id + 1 }) := by
  simp [add_task, hv]

/-- add_task with a valid title and an empty description. -/
theorem add_ok_empty {t : String} (s : TodoStore) (n : Nat)
    (hv : validate_title t = Except.ok ()) :
    add_task s t (some "") n =
      (Except.ok (Task.initTask s.next_id (pyStrip t) none n),
        { tasks := dictInsert s.tasks s.next_id (Task.initTask s.next_id (pyStrip t) none n),
          next_id := s.next_id + 1 }) := by
  simp [add_task, hv]

/-- add_task with a valid title and a valid nonempty description. -/
theorem add_ok_desc {t dd : String} (s : TodoStore) (n : Nat)
    (hv : validate_title t = Except.ok ()) (hdd : dd ≠ "")
    (hvd : validate_description dd = Except.ok ()) :
    add_task s t (some dd) n =
      (Except.ok (Task.initTask s.next_id (pyStrip t) (some (pyStrip dd)) n),
        { tasks := dictInsert s.tasks s.next_id
            (Task.initTask s.next_id (pyStrip t) (some (pyStrip dd)) n),
          next_id := s.next_id + 1 }) := by
  simp [add_task, hv, hdd, hvd]

/-- update_task with both fields missing. -/
theorem update_missing (s : TodoStore) (i : Nat) :
    update_task s i none none =
      (Except.error
        (StoreError.validation "Provide new title or --desc <description>"), s) := by
  unfold update_task
  rw [if_pos ⟨rfl, rfl⟩]

/-- update_task on an absent id. -/
theorem update_notfound (s : TodoStore) (i : Nat) {t d : Option String}
    (h : ¬ (t = none ∧ d = none)) (hl : lookupTask s.tasks i = none) :
    update_task s i t d =
      (Except.error
        (StoreError.notFound ("Task ID " ++ toString i ++ " not found")), s) := by
  unfold update_task
  rw [if_neg h, hl]

/-- update_task with an invalid nonempty title stops before any mutation. -/
theorem update_title_invalid (s : TodoStore) (i : Nat) {tt : String}
    (d : Option String) {task0 : Task} {e : StoreError}
    (hl : lookupTask s.tasks i = some task0)
    (htt : tt ≠ "") (hvt : validate_title tt = Except.error e) :
    update_task s i (some tt) d = (Except.error e, s) := by
  simp [update_task, hl, htt, hvt]

/-- update_task with no title and an invalid description: the store keeps
the addressed task rewritten in place with itself. -/
theorem update_none_desc_err (s : TodoStore) (i : Nat) {dd : String}
    {task0 : Task} {e : StoreError} (hl : lookupTask s.tasks i = some task0)
    (hvd : validate_description dd = Except.error e) :
    update_task s i none (some dd) =
      (Except.error e, { s with tasks := dictInsert s.tasks i task0 }) := by
  simp [update_task, hl, hvd]

/-- update_task with an empty title and an invalid description. -/
theorem update_empty_desc_err (s : TodoStore) (i : Nat) {dd : String}
    {task0 : Task} {e : StoreError} (hl : lookupTask s.tasks i = some task0)
    (hvd : validate_description dd = Except.error e) :
    update_task s i (some "") (some dd) =
      (Except.error e, { s with tasks := dictInsert s.tasks i task0 }) := by
  simp [update_task, hl, hvd]

/-- update_task with a valid title and an invalid description fails after
the title has already been written: the partial mutation of the source. -/
theorem update_valid_desc_err (s : TodoStore) (i : Nat) {tt dd : String}
    {task0 : Task} {e : StoreError} (hl : lookupTask s.tasks i = some task0)
    (htt : tt ≠ "") (hvt : validate_title tt = Except.ok ())
    (hvd : validate_description dd = Except.error e) :
    update_task s i (some tt) (some dd) =
      (Except.error e,
        { s with tasks := dictInsert s.tasks i ({ task0 with title := pyStrip tt }) }) := by
  simp [update_task, hl, htt, hvt, hvd]

/-- update_task with an empty title and no description succeeds silently. -/
theorem update_empty_none (s : TodoStore) (i : Nat) {task0 : Task}
    (hl : lookupTask s.tasks i = some task0) :
    update_task s i (some "") none =
      (Except.ok task0, { s with tasks := dictInsert s.tasks i task0 }) := by
  simp [update_task, hl]

/-- update_task with a valid title and no description. -/
theorem update_valid_none (s : TodoStore) (i : Nat) {tt : String} {task0 : Task}
    (hl : lookupTask s.tasks i = some task0)
    (htt : tt ≠ "") (hvt : validate_title tt = Except.ok ()) :
    update_task s i (some tt) none =
      (Except.ok ({ task0 with title := pyStrip tt }),
        { s with tasks := dictInsert s.tasks i ({ task0 with title := pyStrip tt }) }) := by
  simp [update_task, hl, htt, hvt]

/-- update_task with no title and a valid description. -/
theorem update_none_desc_ok (s : TodoStore) (i : Nat) {dd : String}
    {task0 : Task} (hl : lookupTask s.tasks i = some task0)
    (hvd : validate_description dd = Except.ok ()) :
    update_task s i none (some dd) =
      (Except.ok ({ task0 with description := pyStrip dd }),
        { s with tasks := dictInsert (dictInsert s.tasks i task0) i ({ task0 with description := pyStrip dd }) }) := by
  simp [update_task, hl, hvd]

/-- update_task with an empty title and a valid description. -/
theorem update_empty_desc_ok (s : TodoStore) (i : Nat) {dd : String}
    {task0 : Task} (hl : lookupTask s.tasks i = some task0)
    (hvd : validate_description dd = Except.ok ()) :
    update_task s i (some "") (some dd) =
      (Except.ok ({ task0 with description := pyStrip dd }),
        { s with tasks := dictInsert (dictInsert s.tasks i task0) i ({ task0 with description := pyStrip dd }) }) := by
  simp [update_task, hl, hvd]

/-- update_task with a valid title and a valid description. -/
theorem update_valid_desc_ok (s : TodoStore) (i : Nat) {tt dd : String}
    {task0 : Task} (hl : lookupTask s.tasks i = some task0)
    (htt : tt ≠ "") (hvt : validate_title tt = Except.ok ())
    (hvd : validate_description dd = Except.ok ()) :
    update_task s i (some tt) (some dd) =
      (Except.ok ({ task0 with title := pyStrip tt, description := pyStrip dd }),
        { s with tasks := dictInsert (dictInsert s.tasks i ({ task0 with title := pyStrip tt })) i ({ task0 with title := pyStrip tt, description := pyStrip dd }) }) := by
  simp [update_task, hl, htt, hvt, hvd]

/-- delete_task on an absent id. -/
theorem delete_notfound (s : TodoStore) (i : Nat)
    (hl : lookupTask s.tasks i = none) :
    delete_task s i =
      (Except.error
        (StoreError.notFound ("Task ID " ++ toString i ++ " not found")), s) := by
  simp [delete_task, hl]

/-- delete_task on a present id. -/
theorem delete_ok (s : TodoStore) (i : Nat) {task0 : Task}
    (hl : lookupTask s.tasks i = some task0) :
    delete_task s i =
      (Except.ok (), { s with tasks := s.tasks.filter (fun p => p.1 ≠ i) }) := by
  simp [delete_task, hl]

/-- complete_task on an absent id. -/
theorem complete_notfound (s : TodoStore) (i : Nat)
    (hl : lookupTask s.tasks i = none) :
    complete_task s i =
      (Except.error
        (StoreError.notFound ("Task ID " ++ toString i ++ " not found")), s) := by
  simp [complete_task, hl]

/-- complete_task on a present id. -/
theorem complete_ok (s : TodoStore) (i : Nat) {task0 : Task}
    (hl : lookupTask s.tasks i = some task0) :
    complete_task s i =
      (Except.ok ({ task0 with status := TaskStatus.complete }),
        { s with tasks := dictInsert s.tasks i ({ task0 with status := TaskStatus.complete }) }) := by
  simp [complete_task, hl]

/-- incomplete_task on an absent id. -/
theorem incomplete_notfound (s : TodoStore) (i : Nat)
    (hl : lookupTask s.tasks i = none) :
    incomplete_task s i =
      (Except.error
        (StoreError.notFound ("Task ID " ++ toString i ++ " not found")), s) := by
  simp [incomplete_task, hl]

/-- incomplete_task on a present id. -/
theorem incomplete_ok (s : TodoStore) (i : Nat) {task0 : Task}
    (hl : lookupTask s.tasks i = some task0) :
    incomplete_task s i =
      (Except.ok ({ task0 with status := TaskStatus.incomplete }),
        { s with tasks := dictInsert s.tasks i ({ task0 with status := TaskStatus.incomplete }) }) := by
  simp [incomplete_task, hl]

/-! Concrete fixtures used by counterexamples and witnesses. -/

/-- A title of 101 letters. -/
def title101 : String := String.mk (List.replicate 101 'a')

/-- A title of 100 letters. -/
def title100 : String := String.mk (List.replicate 100 'a')

/-- A description of raw length 501 with no surrounding whitespace. -/
def longDesc501 : String := String.mk (List.replicate 501 'x')

/-- A description of raw length 501 whose trimmed length is 500. -/
def spacePadded501 : String := String.mk (List.replicate 500 'a' ++ [' '])

/-- The store after one successful add of title a at clock 0. -/
def oneTaskStore : TodoStore := (add_task initStore "a" none 0).2

/-- The task stored in oneTaskStore. -/
def taskOne : Task :=
  { id := 1, title := "a", description := "", status := TaskStatus.incomplete,
    created_at := 0 }

/-- The task of oneTaskStore retitled b. -/
def taskOneB : Task :=
  { id := 1, title := "b", description := "", status := TaskStatus.incomplete,
    created_at := 0 }

/-! Claim theorems. -/

/-- C5: add_task fails with ValidationError exactly when the title is
invalid under trimming: the empty title and the single-space title fail with
"Title cannot be empty", any title of trimmed length 101 fails with
"Title exceeds 100 characters", and any title of trimmed length 100 with no
or valid description succeeds and returns the new Task. -/
theorem C5_add_title_validation :
    (∀ (s : TodoStore) (d : Option String) (n : Nat),
      add_task s "" d n =
        (Except.error (StoreError.validation "Title cannot be empty"), s)) ∧
    (∀ (s : TodoStore) (d : Option String) (n : Nat),
      add_task s " " d n =
        (Except.error (StoreError.validation "Title cannot be empty"), s)) ∧
    (∀ (s : TodoStore) (t : String) (d : Option String) (n : Nat),
      (pyStrip t).length = 101 →
      add_task s t d n =
        (Except.error (StoreError.validation "Title exceeds 100 characters"), s)) ∧
    (∀ (s : TodoStore) (t : String) (d : Option String) (n : Nat),
      (pyStrip t).length = 100 →
      (∀ dd, d = some dd → dd.length ≤ 500) →
      ∃ task, (add_task s t d n).1 = Except.ok task ∧
        task.id = s.next_id ∧ task.title = pyStrip t ∧
        task.status = TaskStatus.incomplete) := by
  refine ⟨fun s d n => rfl, fun s d n => rfl, ?_, ?_⟩
  · intro s t d n hlen
    have hne : pyStrip t ≠ "" := by
      intro h
      rw [h] at hlen
      exact absurd hlen (by decide)
    have hv : validate_title t =
        Except.error (StoreError.validation "Title exceeds 100 characters") := by
      rw [validate_title_eq, if_neg hne, if_pos (by omega)]
    unfold add_task
    rw [hv]
  · intro s t d n hlen hd
    have hne : pyStrip t ≠ "" := by
      intro h
      rw [h] at hlen
      exact absurd hlen (by decide)
    have hv : validate_title t = Except.ok () :=
      (validate_title_ok_iff t).mpr ⟨hne, by omega⟩
    rcases d with _ | dd
    · exact ⟨Task.initTask s.next_id (pyStrip t) none n, by simp [add_task, hv], rfl, rfl, rfl⟩
    · have hvd : validate_description dd = Except.ok () := by
        unfold validate_description
        rw [if_neg (by have := hd dd rfl; omega)]
      by_cases hdd : dd = ""
      · subst hdd
        exact ⟨Task.initTask s.next_id (pyStrip t) none n,
          by simp [add_task, hv], rfl, rfl, rfl⟩
      · exact ⟨Task.initTask s.next_id (pyStrip t) (some (pyStrip dd)) n,
          by simp [add_task, hv, hvd, hdd], rfl, rfl, rfl⟩

/-- C5 witness: the four parts at concrete inputs. -/
theorem C5_add_title_validation_witness :
    add_task initStore "" none 0 =
      (Except.error (StoreError.validation "Title cannot be empty"), initStore) ∧
    ((pyStrip title101).length = 101 ∧
      add_task initStore title101 none 0 =
        (Except.error (StoreError.validation "Title exceeds 100 characters"), initStore)) ∧
    ((pyStrip title100).length = 100 ∧
      ∃ task, (add_task initStore title100 none 0).1 = Except.ok task ∧
        task.id = initStore.next_id ∧ task.title = pyStrip title100 ∧
        task.status = TaskStatus.incomplete) :=
  ⟨C5_add_title_validation.1 initStore none 0,
    ⟨by decide, C5_add_title_validation.2.2.1 initStore title101 none 0 (by decide)⟩,
    ⟨by decide, C5_add_title_validation.2.2.2 initStore title100 none 0 (by decide)
      (fun dd h => by simp at h)⟩⟩

/-- C8: update_task with neither a title nor a description fails with
ValidationError for every id, present in the store or not (so the check
precedes the NotFoundError check), and returns the store unchanged. -/
theorem C8_update_missing_fields (s : TodoStore) (i : Nat) :
    update_task s i none none =
      (Except.error
        (StoreError.validation "Provide new title or --desc <description>"), s) := by
  unfold update_task
  rw [if_pos ⟨rfl, rfl⟩]

/-- C2 counterexample: with task 1 present, update_task with the provided
empty title and no description does not fail with ValidationError as the
claim states: it succeeds silently and leaves the store unchanged. -/
theorem C2_counterexample_empty_title :
    (update_task oneTaskStore 1 (some "") none).1 = Except.ok taskOne ∧
    (update_task oneTaskStore 1 (some "") none).2 = oneTaskStore := by decide

/-- C2 amended: a provided nonempty whitespace-only title fails with
ValidationError "Title cannot be empty" and leaves the store unchanged, but
a provided empty-string title is treated as absent: it is not validated,
and with no description the call silently succeeds returning the task with
its title unchanged. -/
theorem C2_amended_title_validation (s : TodoStore) (i : Nat) (task0 : Task)
    (hi : lookupTask s.tasks i = some task0) :
    (∀ (t : String) (d : Option String), t ≠ "" → pyStrip t = "" →
      update_task s i (some t) d =
        (Except.error (StoreError.validation "Title cannot be empty"), s)) ∧
    (update_task s i (some "") none).1 = Except.ok task0 := by
  constructor
  · intro t d ht hw
    have hv : validate_title t =
        Except.error (StoreError.validation "Title cannot be empty") := by
      rw [validate_title_eq, if_pos hw]
    exact update_title_invalid s i d hi ht hv
  · rw [update_empty_none s i hi]

/-- C2 witness: the amended theorem at the one-task store, with the
whitespace title applied as a single space. -/
theorem C2_amended_title_validation_witness :
    lookupTask oneTaskStore.tasks 1 = some taskOne ∧
    update_task oneTaskStore 1 (some " ") none =
      (Except.error (StoreError.validation "Title cannot be empty"), oneTaskStore) ∧
    (update_task oneTaskStore 1 (some "") none).1 = Except.ok taskOne :=
  ⟨by decide,
    (C2_amended_title_validation oneTaskStore 1 taskOne (by decide)).1 " " none
      (by decide) (by decide),
    (C2_amended_title_validation oneTaskStore 1 taskOne (by decide)).2⟩

set_option maxRecDepth 4000 in
/-- C3 counterexample: a description of raw length 501 whose trimmed length
is 500 is rejected by add_task, so the claim that every description of
trimmed length at most 500 is accepted is false. -/
theorem C3_counterexample_trimmed_accepted :
    (pyStrip spacePadded501).length = 500 ∧
    (add_task initStore "t" (some spacePadded501) 0).1 =
      Except.error (StoreError.validation "Description exceeds 500 characters") := by
  decide

/-- C3 amended: the description length limit is measured on the raw string
before trimming: with a valid title and a nonempty description, add_task
fails with "Description exceeds 500 characters" exactly when the raw length
exceeds 500, and update_task on a present id behaves the same way. -/
theorem C3_amended_raw_length (s : TodoStore) (i : Nat) (t d : String) (n : Nat)
    (task0 : Task) (ht : validate_title t = Except.ok ()) (hd : d ≠ "")
    (hi : lookupTask s.tasks i = some task0) :
    ((add_task s t (some d) n).1 =
        Except.error (StoreError.validation "Description exceeds 500 characters") ↔
      500 < d.length) ∧
    ((update_task s i (some t) (some d)).1 =
        Except.error (StoreError.validation "Description exceeds 500 characters") ↔
      500 < d.length) := by
  have htne : t ≠ "" := by
    intro h
    subst h
    exact absurd ht (by decide)
  by_cases hlen : 500 < d.length
  · have hvd : validate_description d =
        Except.error (StoreError.validation "Description exceeds 500 characters") := by
      unfold validate_description
      rw [if_pos (by omega)]
    rw [add_desc_err s n ht hd hvd, update_valid_desc_err s i hi htne ht hvd]
    simp [hlen]
  · have hvd : validate_description d = Except.ok () := by
      unfold validate_description
      rw [if_neg (by omega)]
    rw [add_ok_desc s n ht hd hvd, update_valid_desc_ok s i hi htne ht hvd]
    simp [hlen]

/-- C3 witness: the amended theorem at a description of raw length 501. -/
theorem C3_amended_raw_length_witness :
    (validate_title "t" = Except.ok () ∧ longDesc501 ≠ "" ∧
      lookupTask oneTaskStore.tasks 1 = some taskOne) ∧
    (((add_task oneTaskStore "t" (some longDesc501) 7).1 =
        Except.error (StoreError.validation "Description exceeds 500 characters") ↔
      500 < longDesc501.length) ∧
    ((update_task oneTaskStore 1 (some "t") (some longDesc501)).1 =
        Except.error (StoreError.validation "Description exceeds 500 characters") ↔
      500 < longDesc501.length)) :=
  ⟨⟨by decide, by decide, by decide⟩,
    C3_amended_raw_length oneTaskStore 1 "t" longDesc501 7 taskOne
      (by decide) (by decide) (by decide)⟩

set_option maxRecDepth 4000 in
/-- C1 counterexample: on a store holding one task titled a, update_task
with the valid new title b and a description of raw length 501 raises
ValidationError, yet the store afterwards differs from the store before:
the title has already been changed to b. -/
theorem C1_counterexample_partial_mutation :
    (update_task oneTaskStore 1 (some "b") (some longDesc501)).1 =
      Except.error (StoreError.validation "Description exceeds 500 characters") ∧
    (update_task oneTaskStore 1 (some "b") (some longDesc501)).2 ≠ oneTaskStore ∧
    lookupTask (update_task oneTaskStore 1 (some "b") (some longDesc501)).2.tasks 1 =
      some { id := 1, title := "b", description := "",
             status := TaskStatus.incomplete, created_at := 0 } := by
  decide

/-- C1 amended: a failed add_task, delete_task, complete_task or
incomplete_task leaves the store unchanged, and a failed update_task leaves
next_id, the key sequence, every other task and every field of the
addressed task except its title unchanged; the title too is unchanged
except when a title passing validation and a description failing validation
were both provided, in which case the title has already been set to the
trimmed new title when the error is raised. -/
theorem C1_amended_no_partial_mutation :
    (∀ (s : TodoStore) (t : String) (d : Option String) (n : Nat) (e : StoreError),
      (add_task s t d n).1 = Except.error e → (add_task s t d n).2 = s) ∧
    (∀ (s : TodoStore) (i : Nat) (e : StoreError),
      (delete_task s i).1 = Except.error e → (delete_task s i).2 = s) ∧
    (∀ (s : TodoStore) (i : Nat) (e : StoreError),
      (complete_task s i).1 = Except.error e → (complete_task s i).2 = s) ∧
    (∀ (s : TodoStore) (i : Nat) (e : StoreError),
      (incomplete_task s i).1 = Except.error e → (incomplete_task s i).2 = s) ∧
    (∀ (s : TodoStore) (i : Nat) (t d : Option String) (e : StoreError),
      (update_task s i t d).1 = Except.error e →
      (update_task s i t d).2.next_id = s.next_id ∧
      (update_task s i t d).2.tasks.map Prod.fst = s.tasks.map Prod.fst ∧
      (∀ j, j ≠ i →
        lookupTask (update_task s i t d).2.tasks j = lookupTask s.tasks j) ∧
      (lookupTask s.tasks i = none → (update_task s i t d).2 = s) ∧
      (∀ task0, lookupTask s.tasks i = some task0 →
        ∃ task1, lookupTask (update_task s i t d).2.tasks i = some task1 ∧
          task1.id = task0.id ∧ task1.description = task0.description ∧
          task1.status = task0.status ∧ task1.created_at = task0.created_at ∧
          (task1.title = task0.title ∨
            ∃ tt dd, t = some tt ∧ d = some dd ∧
              validate_title tt = Except.ok () ∧
              validate_description dd = Except.error e ∧
              task1.title = pyStrip tt))) := by
  refine ⟨?_, ?_, ?_, ?_, ?_⟩
  · intro s t d n e h
    cases hv : validate_title t with
    | error e1 => rw [add_title_err s d n hv]
    | ok u =>
      cases u
      cases d with
      | none => rw [add_ok_none s n hv] at h; exact absurd h (by simp)
      | some dd =>
        by_cases hdd : dd = ""
        · subst hdd
          rw [add_ok_empty s n hv] at h
          exact absurd h (by simp)
        · cases hvd : validate_description dd with
          | error e2 => rw [add_desc_err s n hv hdd hvd]
          | ok u2 =>
            cases u2
            rw [add_ok_desc s n hv hdd hvd] at h
            exact absurd h (by simp)
  · intro s i e h
    cases hl : lookupTask s.tasks i with
    | none => rw [delete_notfound s i hl]
    | some task0 => rw [delete_ok s i hl] at h; exact absurd h (by simp)
  · intro s i e h
    cases hl : lookupTask s.tasks i with
    | none => rw [complete_notfound s i hl]
    | some task0 => rw [complete_ok s i hl] at h; exact absurd h (by simp)
  · intro s i e h
    cases hl : lookupTask s.tasks i with
    | none => rw [incomplete_notfound s i hl]
    | some task0 => rw [incomplete_ok s i hl] at h; exact absurd h (by simp)
  · intro s i t d e h
    by_cases hnn : t = none ∧ d = none
    · obtain ⟨ht1, hd1⟩ := hnn
      subst ht1
      subst hd1
      rw [update_missing s i]
      exact ⟨rfl, rfl, fun j _ => rfl, fun _ => rfl,
        fun task0 h0 => ⟨task0, h0, rfl, rfl, rfl, rfl, Or.inl rfl⟩⟩
    · cases hl : lookupTask s.tasks i with
      | none =>
        rw [update_notfound s i hnn hl]
        refine ⟨rfl, rfl, fun j _ => rfl, fun _ => rfl, fun task0 h0 => ?_⟩
        exact absurd h0 (by simp)
      | some task0 =>
        cases t with
        | none =>
          cases d with
          | none => exact absurd ⟨rfl, rfl⟩ hnn
          | some dd =>
            cases hvd : validate_description dd with
            | error e2 =>
              rw [update_none_desc_err s i hl hvd]
              refine ⟨rfl, keys_dictInsert_of_any task0 (any_of_lookup hl),
                fun j hj => lookup_dictInsert_ne _ _ _ hj, fun hnone => ?_,
                fun task0x h0 => ?_⟩
              · exact absurd hnone (by simp)
              · injection h0 with h0e
                subst h0e
                exact ⟨task0, lookup_dictInsert_self _ _ _, rfl, rfl, rfl, rfl,
                  Or.inl rfl⟩
            | ok u2 =>
              cases u2
              rw [update_none_desc_ok s i hl hvd] at h
              exact absurd h (by simp)
        | some tt =>
          by_cases htt : tt = ""
          · subst htt
            cases d with
            | none =>
              rw [update_empty_none s i hl] at h
              exact absurd h (by simp)
            | some dd =>
              cases hvd : validate_description dd with
              | error e2 =>
                rw [update_empty_desc_err s i hl hvd]
                refine ⟨rfl, keys_dictInsert_of_any task0 (any_of_lookup hl),
                  fun j hj => lookup_dictInsert_ne _ _ _ hj, fun hnone => ?_,
                  fun task0x h0 => ?_⟩
                · exact absurd hnone (by simp)
                · injection h0 with h0e
                  subst h0e
                  exact ⟨task0, lookup_dictInsert_self _ _ _, rfl, rfl, rfl, rfl,
                    Or.inl rfl⟩
              | ok u2 =>
                cases u2
                rw [update_empty_desc_ok s i hl hvd] at h
                exact absurd h (by simp)
          · cases hvt : validate_title tt with
            | error e1 =>
              rw [update_title_invalid s i d hl htt hvt]
              refine ⟨rfl, rfl, fun j _ => rfl, fun _ => rfl, fun task0x h0 => ?_⟩
              injection h0 with h0e
              subst h0e
              exact ⟨task0, hl, rfl, rfl, rfl, rfl, Or.inl rfl⟩
            | ok u1 =>
              cases u1
              cases d with
              | none =>
                rw [update_valid_none s i hl htt hvt] at h
                exact absurd h (by simp)
              | some dd =>
                cases hvd : validate_description dd with
                | error e2 =>
                  rw [update_valid_desc_err s i hl htt hvt hvd] at h ⊢
                  have he : e2 = e := by simpa using h
                  subst he
                  refine ⟨rfl, keys_dictInsert_of_any _ (any_of_lookup hl),
                    fun j hj => lookup_dictInsert_ne _ _ _ hj, fun hnone => ?_,
                    fun task0x h0 => ?_⟩
                  · exact absurd hnone (by simp)
                  · injection h0 with h0e
                    subst h0e
                    exact ⟨{ task0 with title := pyStrip tt },
                      lookup_dictInsert_self _ _ _, rfl, rfl, rfl, rfl,
                      Or.inr ⟨tt, dd, rfl, rfl, hvt, hvd, rfl⟩⟩
                | ok u2 =>
                  cases u2
                  rw [update_valid_desc_ok s i hl htt hvt hvd] at h
                  exact absurd h (by simp)

set_option maxRecDepth 4000 in
/-- C1 witness: the amended theorem applied to a failing add on the empty
store and to the failing update of the counterexample. -/
theorem C1_amended_no_partial_mutation_witness :
    ((add_task initStore "" none 0).1 =
        Except.error (StoreError.validation "Title cannot be empty") ∧
      (add_task initStore "" none 0).2 = initStore) ∧
    ((update_task oneTaskStore 1 (some "b") (some longDesc501)).1 =
        Except.error (StoreError.validation "Description exceeds 500 characters") ∧
      (update_task oneTaskStore 1 (some "b") (some longDesc501)).2.next_id =
        oneTaskStore.next_id) :=
  ⟨⟨by decide,
      C1_amended_no_partial_mutation.1 initStore "" none 0
        (StoreError.validation "Title cannot be empty") (by decide)⟩,
    ⟨by decide,
      (C1_amended_no_partial_mutation.2.2.2.2 oneTaskStore 1 (some "b")
        (some longDesc501)
        (StoreError.validation "Description exceeds 500 characters") (by decide)).1⟩⟩

/-- C6: for a present id, complete_task followed by incomplete_task leaves
the task with status INCOMPLETE and id, title, description and created_at
unchanged, and re-applying either operation has no further effect on the
store. -/
theorem C6_complete_incomplete_roundtrip (s : TodoStore) (i : Nat) (task0 : Task)
    (h : lookupTask s.tasks i = some task0) :
    lookupTask (incomplete_task (complete_task s i).2 i).2.tasks i =
      some { id := task0.id, title := task0.title,
             description := task0.description,
             status := TaskStatus.incomplete, created_at := task0.created_at } ∧
    (complete_task (complete_task s i).2 i).2 = (complete_task s i).2 ∧
    (incomplete_task (incomplete_task s i).2 i).2 = (incomplete_task s i).2 := by
  have h1 := complete_ok s i h
  have h2 := incomplete_ok s i h
  have hl1 : lookupTask
      (dictInsert s.tasks i ({ task0 with status := TaskStatus.complete })) i =
      some ({ task0 with status := TaskStatus.complete }) :=
    lookup_dictInsert_self _ _ _
  have hl2 : lookupTask
      (dictInsert s.tasks i ({ task0 with status := TaskStatus.incomplete })) i =
      some ({ task0 with status := TaskStatus.incomplete }) :=
    lookup_dictInsert_self _ _ _
  refine ⟨?_, ?_, ?_⟩
  · rw [h1, incomplete_ok _ i hl1]
    exact lookup_dictInsert_self _ _ _
  · rw [h1, complete_ok _ i hl1]
    show TodoStore.mk (dictInsert (dictInsert s.tasks i _) i
      ({ task0 with status := TaskStatus.complete })) s.next_id = _
    rw [dictInsert_dictInsert]
  · rw [h2, incomplete_ok _ i hl2]
    show TodoStore.mk (dictInsert (dictInsert s.tasks i _) i
      ({ task0 with status := TaskStatus.incomplete })) s.next_id = _
    rw [dictInsert_dictInsert]

/-- C6 witness: the roundtrip applied to the one-task store. -/
theorem C6_complete_incomplete_roundtrip_witness :
    lookupTask oneTaskStore.tasks 1 = some taskOne ∧
    (lookupTask (incomplete_task (complete_task oneTaskStore 1).2 1).2.tasks 1 =
      some { id := taskOne.id, title := taskOne.title,
             description := taskOne.description,
             status := TaskStatus.incomplete, created_at := taskOne.created_at } ∧
    (complete_task (complete_task oneTaskStore 1).2 1).2 =
      (complete_task oneTaskStore 1).2 ∧
    (incomplete_task (incomplete_task oneTaskStore 1).2 1).2 =
      (incomplete_task oneTaskStore 1).2) :=
  ⟨by decide, C6_complete_incomplete_roundtrip oneTaskStore 1 taskOne (by decide)⟩

/-- C7: a successful update_task mutates only the provided fields of the
addressed task: next_id is unchanged, every other task is unchanged, the
returned task is the stored one, its id, status and created_at equal their
previous values, and an unprovided title or description keeps its previous
value. -/
theorem C7_update_frame (s : TodoStore) (i : Nat) (t d : Option String)
    (task task0 : Task)
    (h : (update_task s i t d).1 = Except.ok task)
    (h0 : lookupTask s.tasks i = some task0) :
    (update_task s i t d).2.next_id = s.next_id ∧
    (∀ j, j ≠ i →
      lookupTask (update_task s i t d).2.tasks j = lookupTask s.tasks j) ∧
    lookupTask (update_task s i t d).2.tasks i = some task ∧
    task.id = task0.id ∧ task.status = task0.status ∧
    task.created_at = task0.created_at ∧
    (t = none → task.title = task0.title) ∧
    (d = none → task.description = task0.description) := by
  cases t with
  | none =>
    cases d with
    | none =>
      rw [update_missing s i] at h
      exact absurd h (by simp)
    | some dd =>
      cases hvd : validate_description dd with
      | error e2 =>
        rw [update_none_desc_err s i h0 hvd] at h
        exact absurd h (by simp)
      | ok u2 =>
        cases u2
        rw [update_none_desc_ok s i h0 hvd] at h ⊢
        have heq : ({ task0 with description := pyStrip dd } : Task) = task := by
          simpa using h
        subst heq
        exact ⟨rfl,
          fun j hj => by
            rw [lookup_dictInsert_ne _ _ _ hj, lookup_dictInsert_ne _ _ _ hj],
          lookup_dictInsert_self _ _ _, rfl, rfl, rfl, fun _ => rfl,
          fun hd => by simp at hd⟩
  | some tt =>
    by_cases htt : tt = ""
    · subst htt
      cases d with
      | none =>
        rw [update_empty_none s i h0] at h ⊢
        have heq : task0 = task := by simpa using h
        subst heq
        exact ⟨rfl, fun j hj => lookup_dictInsert_ne _ _ _ hj,
          lookup_dictInsert_self _ _ _, rfl, rfl, rfl,
          fun ht => by simp at ht, fun _ => rfl⟩
      | some dd =>
        cases hvd : validate_description dd with
        | error e2 =>
          rw [update_empty_desc_err s i h0 hvd] at h
          exact absurd h (by simp)
        | ok u2 =>
          cases u2
          rw [update_empty_desc_ok s i h0 hvd] at h ⊢
          have heq : ({ task0 with description := pyStrip dd } : Task) = task := by
            simpa using h
          subst heq
          exact ⟨rfl,
            fun j hj => by
              rw [lookup_dictInsert_ne _ _ _ hj, lookup_dictInsert_ne _ _ _ hj],
            lookup_dictInsert_self _ _ _, rfl, rfl, rfl,
            fun ht => by simp at ht, fun hd => by simp at hd⟩
    · cases hvt : validate_title tt with
      | error e1 =>
        rw [update_title_invalid s i d h0 htt hvt] at h
        exact absurd h (by simp)
      | ok u1 =>
        cases u1
        cases d with
        | none =>
          rw [update_valid_none s i h0 htt hvt] at h ⊢
          have heq : ({ task0 with title := pyStrip tt } : Task) = task := by
            simpa using h
          subst heq
          exact ⟨rfl, fun j hj => lookup_dictInsert_ne _ _ _ hj,
            lookup_dictInsert_self _ _ _, rfl, rfl, rfl,
            fun ht => by simp at ht, fun _ => rfl⟩
        | some dd =>
          cases hvd : validate_description dd with
          | error e2 =>
            rw [update_valid_desc_err s i h0 htt hvt hvd] at h
            exact absurd h (by simp)
          | ok u2 =>
            cases u2
            rw [update_valid_desc_ok s i h0 htt hvt hvd] at h ⊢
            have heq :
                ({ task0 with title := pyStrip tt, description := pyStrip dd } :
                  Task) = task := by
              simpa using h
            subst heq
            exact ⟨rfl,
              fun j hj => by
                rw [lookup_dictInsert_ne _ _ _ hj, lookup_dictInsert_ne _ _ _ hj],
              lookup_dictInsert_self _ _ _, rfl, rfl, rfl,
              fun ht => by simp at ht, fun hd => by simp at hd⟩

/-- C7 witness: a successful title-only update on the one-task store. -/
theorem C7_update_frame_witness :
    ((update_task oneTaskStore 1 (some "b") none).1 = Except.ok taskOneB ∧
      lookupTask oneTaskStore.tasks 1 = some taskOne) ∧
    ((update_task oneTaskStore 1 (some "b") none).2.next_id =
      oneTaskStore.next_id ∧
    (∀ j, j ≠ 1 →
      lookupTask (update_task oneTaskStore 1 (some "b") none).2.tasks j =
        lookupTask oneTaskStore.tasks j) ∧
    lookupTask (update_task oneTaskStore 1 (some "b") none).2.tasks 1 =
      some taskOneB ∧
    taskOneB.id = taskOne.id ∧ taskOneB.status = taskOne.status ∧
    taskOneB.created_at = taskOne.created_at ∧
    ((some "b" : Option String) = none → taskOneB.title = taskOne.title) ∧
    ((none : Option String) = none →
      taskOneB.description = taskOne.description)) :=
  ⟨⟨by decide, by decide⟩,
    C7_update_frame oneTaskStore 1 (some "b") none taskOneB taskOne
      (by decide) (by decide)⟩

/-- update_task never changes next_id. -/
theorem update_next_id (s : TodoStore) (i : Nat) (t d : Option String) :
    (update_task s i t d).2.next_id = s.next_id := by
  by_cases hnn : t = none ∧ d = none
  · obtain ⟨h1, h2⟩ := hnn
    subst h1
    subst h2
    rw [update_missing s i]
  · cases hl : lookupTask s.tasks i with
    | none => rw [update_notfound s i hnn hl]
    | some task0 =>
      cases t with
      | none =>
        cases d with
        | none => exact absurd ⟨rfl, rfl⟩ hnn
        | some dd =>
          cases hvd : validate_description dd with
          | error e2 => rw [update_none_desc_err s i hl hvd]
          | ok u2 => cases u2; rw [update_none_desc_ok s i hl hvd]
      | some tt =>
        by_cases htt : tt = ""
        · subst htt
          cases d with
          | none => rw [update_empty_none s i hl]
          | some dd =>
            cases hvd : validate_description dd with
            | error e2 => rw [update_empty_desc_err s i hl hvd]
            | ok u2 => cases u2; rw [update_empty_desc_ok s i hl hvd]
        · cases hvt : validate_title tt with
          | error e1 => rw [update_title_invalid s i d hl htt hvt]
          | ok u1 =>
            cases u1
            cases d with
            | none => rw [update_valid_none s i hl htt hvt]
            | some dd =>
              cases hvd : validate_description dd with
              | error e2 => rw [update_valid_desc_err s i hl htt hvt hvd]
              | ok u2 => cases u2; rw [update_valid_desc_ok s i hl htt hvt hvd]

/-- delete_task never changes next_id. -/
theorem delete_next_id (s : TodoStore) (i : Nat) :
    (delete_task s i).2.next_id = s.next_id := by
  unfold delete_task
  split
  · rfl
  · rfl

/-- complete_task never changes next_id. -/
theorem complete_next_id (s : TodoStore) (i : Nat) :
    (complete_task s i).2.next_id = s.next_id := by
  unfold complete_task
  split
  · rfl
  · rfl

/-- incomplete_task never changes next_id. -/
theorem incomplete_next_id (s : TodoStore) (i : Nat) :
    (incomplete_task s i).2.next_id = s.next_id := by
  unfold incomplete_task
  split
  · rfl
  · rfl

/-- A failing add_task leaves the store unchanged. -/
theorem add_err_unchanged (s : TodoStore) (t : String) (d : Option String)
    (n : Nat) {e : StoreError} (h : (add_task s t d n).1 = Except.error e) :
    (add_task s t d n).2 = s := by
  cases hv : validate_title t with
  | error e1 => rw [add_title_err s d n hv]
  | ok u =>
    cases u
    cases d with
    | none => rw [add_ok_none s n hv] at h; exact absurd h (by simp)
    | some dd =>
      by_cases hdd : dd = ""
      · subst hdd
        rw [add_ok_empty s n hv] at h
        exact absurd h (by simp)
      · cases hvd : validate_description dd with
        | error e2 => rw [add_desc_err s n hv hdd hvd]
        | ok u2 =>
          cases u2
          rw [add_ok_desc s n hv hdd hvd] at h
          exact absurd h (by simp)

/-- A successful add_task returns the task carrying the old next_id and
bumps next_id by one. -/
theorem add_ok_state (s : TodoStore) (t : String) (d : Option String)
    (n : Nat) {task : Task} (h : (add_task s t d n).1 = Except.ok task) :
    task.id = s.next_id ∧ (add_task s t d n).2.next_id = s.next_id + 1 := by
  cases hv : validate_title t with
  | error e1 => rw [add_title_err s d n hv] at h; exact absurd h (by simp)
  | ok u =>
    cases u
    cases d with
    | none =>
      rw [add_ok_none s n hv] at h ⊢
      have heq : Task.initTask s.next_id (pyStrip t) none n = task := by
        simpa using h
      subst heq
      exact ⟨rfl, rfl⟩
    | some dd =>
      by_cases hdd : dd = ""
      · subst hdd
        rw [add_ok_empty s n hv] at h ⊢
        have heq : Task.initTask s.next_id (pyStrip t) none n = task := by
          simpa using h
        subst heq
        exact ⟨rfl, rfl⟩
      · cases hvd : validate_description dd with
        | error e2 =>
          rw [add_desc_err s n hv hdd hvd] at h
          exact absurd h (by simp)
        | ok u2 =>
          cases u2
          rw [add_ok_desc s n hv hdd hvd] at h ⊢
          have heq :
              Task.initTask s.next_id (pyStrip t) (some (pyStrip dd)) n = task := by
            simpa using h
          subst heq
          exact ⟨rfl, rfl⟩

/-- No operation ever decreases next_id. -/
theorem applyOp_next_id_mono (s : TodoStore) (op : Op) :
    s.next_id ≤ (applyOp s op).next_id := by
  cases op with
  | add t dsc n =>
    show s.next_id ≤ (add_task s t dsc n).2.next_id
    cases hr : (add_task s t dsc n).1 with
    | error e => rw [add_err_unchanged s t dsc n hr]
    | ok task =>
      rw [(add_ok_state s t dsc n hr).2]
      omega
  | update i t2 d2 => exact le_of_eq (update_next_id s i t2 d2).symm
  | delete i => exact le_of_eq (delete_next_id s i).symm
  | complete i => exact le_of_eq (complete_next_id s i).symm
  | incomplete i => exact le_of_eq (incomplete_next_id s i).symm

/-- The ids returned by the successful adds of a sequence are consecutive
integers starting at the next_id of the starting store. -/
theorem addedIds_eq_range (ops : List Op) : ∀ s : TodoStore,
    addedIds s ops = List.range' s.next_id (addedIds s ops).length := by
  induction ops with
  | nil => intro s; rfl
  | cons op rest ih =>
    intro s
    cases op with
    | add t dsc n =>
      cases hr : (add_task s t dsc n).1 with
      | error e =>
        have hstep : applyOp s (Op.add t dsc n) = s := add_err_unchanged s t dsc n hr
        simp only [addedIds, hr, hstep]
        exact ih s
      | ok task =>
        obtain ⟨hid, hnid⟩ := add_ok_state s t dsc n hr
        have ihs := ih (applyOp s (Op.add t dsc n))
        have hnid2 : (applyOp s (Op.add t dsc n)).next_id = s.next_id + 1 := hnid
        rw [hnid2] at ihs
        simp only [addedIds, hr]
        rw [List.length_cons, List.range'_succ, hid, ihs]
        simp [List.length_range']
    | update i t2 d2 =>
      have hnid : (applyOp s (Op.update i t2 d2)).next_id = s.next_id :=
        update_next_id s i t2 d2
      have ihs := ih (applyOp s (Op.update i t2 d2))
      rw [hnid] at ihs
      simpa only [addedIds] using ihs
    | delete i =>
      have hnid : (applyOp s (Op.delete i)).next_id = s.next_id :=
        delete_next_id s i
      have ihs := ih (applyOp s (Op.delete i))
      rw [hnid] at ihs
      simpa only [addedIds] using ihs
    | complete i =>
      have hnid : (applyOp s (Op.complete i)).next_id = s.next_id :=
        complete_next_id s i
      have ihs := ih (applyOp s (Op.complete i))
      rw [hnid] at ihs
      simpa only [addedIds] using ihs
    | incomplete i =>
      have hnid : (applyOp s (Op.incomplete i)).next_id = s.next_id :=
        incomplete_next_id s i
      have ihs := ih (applyOp s (Op.incomplete i))
      rw [hnid] at ihs
      simpa only [addedIds] using ihs

/-- C4: over every operation sequence started on the empty store, the ids
returned by successful add_task calls are exactly 1, 2, 3, ... in order,
and next_id is never decremented by any operation. -/
theorem C4_sequential_ids :
    (∀ ops : List Op, addedIds initStore ops =
      List.range' 1 (addedIds initStore ops).length) ∧
    (∀ (s : TodoStore) (op : Op), s.next_id ≤ (applyOp s op).next_id) :=
  ⟨fun ops => addedIds_eq_range ops initStore, applyOp_next_id_mono⟩

/-- A stored task is well-formed: trimmed nonempty title of at most 100
characters and trimmed description of at most 500 characters. -/
def TaskValid (t : Task) : Prop :=
  t.title = pyStrip t.title ∧ 1 ≤ t.title.length ∧ t.title.length ≤ 100 ∧
  t.description = pyStrip t.description ∧ t.description.length ≤ 500

/-- Store invariant: keys strictly increasing and below next_id, each entry
carries its key as its id, and every stored task is well-formed. -/
def StoreInv (s : TodoStore) : Prop :=
  List.Pairwise (· < ·) (s.tasks.map Prod.fst) ∧
  (∀ p ∈ s.tasks, p.2.id = p.1 ∧ p.1 < s.next_id ∧ TaskValid p.2)

/-- A description passes validation exactly when its raw length is at most
500 characters. -/
theorem validate_description_ok_iff (d : String) :
    validate_description d = Except.ok () ↔ d.length ≤ 500 := by
  constructor
  · intro hok
    by_contra hgt
    unfold validate_description at hok
    rw [if_pos (by omega)] at hok
    exact absurd hok (by simp)
  · intro hle
    unfold validate_description
    rw [if_neg (by omega)]

/-- Inserting a fresh task under next_id and bumping next_id preserves the
store invariant. -/
theorem inv_insert_fresh (s : TodoStore) (task : Task) (h : StoreInv s)
    (hid : task.id = s.next_id) (hval : TaskValid task) :
    StoreInv { tasks := dictInsert s.tasks s.next_id task,
               next_id := s.next_id + 1 } := by
  obtain ⟨hpw, hmem⟩ := h
  have hfresh : ¬ s.tasks.any (fun p => p.1 = s.next_id) = true := by
    intro hc
    rcases List.any_eq_true.mp hc with ⟨p, hp, hpk⟩
    have hb := (hmem p hp).2.1
    simp at hpk
    omega
  constructor
  · show List.Pairwise (· < ·) ((dictInsert s.tasks s.next_id task).map Prod.fst)
    rw [keys_dictInsert_of_not_any _ hfresh]
    refine List.pairwise_append.mpr ⟨hpw, by simp, ?_⟩
    intro x hx y hy
    simp at hy
    subst hy
    rcases List.mem_map.mp hx with ⟨p, hp, hpx⟩
    have hb := (hmem p hp).2.1
    omega
  · intro p hp
    rcases mem_dictInsert hp with hold | hnew
    · have hm := hmem p hold
      have hb := hm.2.1
      refine ⟨hm.1, ?_, hm.2.2⟩
      show p.1 < s.next_id + 1
      omega
    · subst hnew
      refine ⟨hid, ?_, hval⟩
      show s.next_id < s.next_id + 1
      omega

/-- Rewriting a present key with a task that keeps the stored id preserves
the store invariant. -/
theorem inv_insert_existing (s : TodoStore) (i : Nat) (task0 task1 : Task)
    (h : StoreInv s) (hl : lookupTask s.tasks i = some task0)
    (hid : task1.id = task0.id) (hval : TaskValid task1) :
    StoreInv { s with tasks := dictInsert s.tasks i task1 } := by
  obtain ⟨hpw, hmem⟩ := h
  have ha := any_of_lookup hl
  have hm0 := mem_of_lookup hl
  constructor
  · show List.Pairwise (· < ·) ((dictInsert s.tasks i task1).map Prod.fst)
    rw [keys_dictInsert_of_any _ ha]
    exact hpw
  · intro p hp
    rcases mem_dictInsert hp with hold | hnew
    · exact hmem p hold
    · subst hnew
      refine ⟨?_, (hmem _ hm0).2.1, hval⟩
    
      show task1.id = i
      rw [hid]
      exact (hmem _ hm0).1

/-- The task built by a successful add is well-formed. -/
theorem taskValid_add {t : String} (idv n : Nat) (dArg : Option String)
    (hv : validate_title t = Except.ok ())
    (hd : ∀ dd, dArg = some dd → dd = pyStrip dd ∧ dd.length ≤ 500) :
    TaskValid (Task.initTask idv (pyStrip t) dArg n) := by
  obtain ⟨hne, hlen⟩ := (validate_title_ok_iff t).mp hv
  cases dArg with
  | none =>
    exact ⟨(pyStrip_idem t).symm, length_pos_of_ne_empty hne, hlen, rfl,
      by show ("" : String).length ≤ 500; decide⟩
  | some dd =>
    obtain ⟨hdd1, hdd2⟩ := hd dd rfl
    by_cases hdd : dd = ""
    · subst hdd
      exact ⟨(pyStrip_idem t).symm, length_pos_of_ne_empty hne, hlen, rfl,
        by show ("" : String).length ≤ 500; decide⟩
    · refine ⟨(pyStrip_idem t).symm, length_pos_of_ne_empty hne, hlen, ?_, ?_⟩
      · show (if dd ≠ "" then dd else "") = pyStrip (if dd ≠ "" then dd else "")
        rw [if_pos hdd]
        exact hdd1
      · show (if dd ≠ "" then dd else "").length ≤ 500
        rw [if_pos hdd]
        exact hdd2

/-- add_task preserves the store invariant. -/
theorem inv_add (s : TodoStore) (t : String) (d : Option String) (n : Nat)
    (h : StoreInv s) : StoreInv (add_task s t d n).2 := by
  cases hv : validate_title t with
  | error e1 => rw [add_title_err s d n hv]; exact h
  | ok u =>
    cases u
    cases d with
    | none =>
      rw [add_ok_none s n hv]
      exact inv_insert_fresh s _ h rfl (taskValid_add s.next_id n none hv
        (fun dd hdd => by simp at hdd))
    | some dd =>
      by_cases hdd : dd = ""
      · subst hdd
        rw [add_ok_empty s n hv]
        exact inv_insert_fresh s _ h rfl (taskValid_add s.next_id n none hv
          (fun dd2 hdd2 => by simp at hdd2))
      · cases hvd : validate_description dd with
        | error e2 => rw [add_desc_err s n hv hdd hvd]; exact h
        | ok u2 =>
          cases u2
          rw [add_ok_desc s n hv hdd hvd]
          refine inv_insert_fresh s _ h rfl (taskValid_add s.next_id n
            (some (pyStrip dd)) hv (fun dd2 hdd2 => ?_))
          have hdd3 : pyStrip dd = dd2 := by simpa using hdd2
          subst hdd3
          exact ⟨(pyStrip_idem dd).symm,
            le_trans (pyStrip_length_le dd)
              ((validate_description_ok_iff dd).mp hvd)⟩

/-- update_task preserves the store invariant. -/
theorem inv_update (s : TodoStore) (i : Nat) (t d : Option String)
    (h : StoreInv s) : StoreInv (update_task s i t d).2 := by
  by_cases hnn : t = none ∧ d = none
  · obtain ⟨h1, h2⟩ := hnn
    subst h1
    subst h2
    rw [update_missing s i]
    exact h
  · cases hl : lookupTask s.tasks i with
    | none => rw [update_notfound s i hnn hl]; exact h
    | some task0 =>
      have hval0 : TaskValid task0 := (h.2 _ (mem_of_lookup hl)).2.2
      cases t with
      | none =>
        cases d with
        | none => exact absurd ⟨rfl, rfl⟩ hnn
        | some dd =>
          cases hvd : validate_description dd with
          | error e2 =>
            rw [update_none_desc_err s i hl hvd]
            exact inv_insert_existing s i task0 task0 h hl rfl hval0
          | ok u2 =>
            cases u2
            rw [update_none_desc_ok s i hl hvd]
            have h1 := inv_insert_existing s i task0 task0 h hl rfl hval0
            exact inv_insert_existing _ i task0
              ({ task0 with description := pyStrip dd }) h1
              (lookup_dictInsert_self _ _ _) rfl
              ⟨hval0.1, hval0.2.1, hval0.2.2.1, (pyStrip_idem dd).symm,
                le_trans (pyStrip_length_le dd)
                  ((validate_description_ok_iff dd).mp hvd)⟩
      | some tt =>
        by_cases htt : tt = ""
        · subst htt
          cases d with
          | none =>
            rw [update_empty_none s i hl]
            exact inv_insert_existing s i task0 task0 h hl rfl hval0
          | some dd =>
            cases hvd : validate_description dd with
            | error e2 =>
              rw [update_empty_desc_err s i hl hvd]
              exact inv_insert_existing s i task0 task0 h hl rfl hval0
            | ok u2 =>
              cases u2
              rw [update_empty_desc_ok s i hl hvd]
              have h1 := inv_insert_existing s i task0 task0 h hl rfl hval0
              exact inv_insert_existing _ i task0
                ({ task0 with description := pyStrip dd }) h1
                (lookup_dictInsert_self _ _ _) rfl
                ⟨hval0.1, hval0.2.1, hval0.2.2.1, (pyStrip_idem dd).symm,
                  le_trans (pyStrip_length_le dd)
                    ((validate_description_ok_iff dd).mp hvd)⟩
        · cases hvt : validate_title tt with
          | error e1 =>
            rw [update_title_invalid s i d hl htt hvt]
            exact h
          | ok u1 =>
            cases u1
            obtain ⟨hne, hlen⟩ := (validate_title_ok_iff tt).mp hvt
            have hvalT : TaskValid { task0 with title := pyStrip tt } :=
              ⟨(pyStrip_idem tt).symm, length_pos_of_ne_empty hne, hlen,
                hval0.2.2.2.1, hval0.2.2.2.2⟩
            cases d with
            | none =>
              rw [update_valid_none s i hl htt hvt]
              exact inv_insert_existing s i task0
                ({ task0 with title := pyStrip tt }) h hl rfl hvalT
            | some dd =>
              cases hvd : validate_description dd with
              | error e2 =>
                rw [update_valid_desc_err s i hl htt hvt hvd]
                exact inv_insert_existing s i task0
                  ({ task0 with title := pyStrip tt }) h hl rfl hvalT
              | ok u2 =>
                cases u2
                rw [update_valid_desc_ok s i hl htt hvt hvd]
                have h1 := inv_insert_existing s i task0
                  ({ task0 with title := pyStrip tt }) h hl rfl hvalT
                exact inv_insert_existing _ i ({ task0 with title := pyStrip tt })
                  ({ task0 with title := pyStrip tt, description := pyStrip dd }) h1
                  (lookup_dictInsert_self _ _ _) rfl
                  ⟨(pyStrip_idem tt).symm, length_pos_of_ne_empty hne, hlen,
                    (pyStrip_idem dd).symm,
                    le_trans (pyStrip_length_le dd)
                      ((validate_description_ok_iff dd).mp hvd)⟩

/-- delete_task preserves the store invariant. -/
theorem inv_delete (s : TodoStore) (i : Nat) (h : StoreInv s) :
    StoreInv (delete_task s i).2 := by
  cases hl : lookupTask s.tasks i with
  | none => rw [delete_notfound s i hl]; exact h
  | some task0 =>
    rw [delete_ok s i hl]
    obtain ⟨hpw, hmem⟩ := h
    constructor
    · show List.Pairwise (· < ·)
        ((s.tasks.filter (fun p => p.1 ≠ i)).map Prod.fst)
      exact hpw.sublist ((List.filter_sublist s.tasks).map Prod.fst)
    · intro p hp
      exact hmem p (List.mem_of_mem_filter hp)

/-- complete_task preserves the store invariant. -/
theorem inv_complete (s : TodoStore) (i : Nat) (h : StoreInv s) :
    StoreInv (complete_task s i).2 := by
  cases hl : lookupTask s.tasks i with
  | none => rw [complete_notfound s i hl]; exact h
  | some task0 =>
    rw [complete_ok s i hl]
    have hval0 : TaskValid task0 := (h.2 _ (mem_of_lookup hl)).2.2
    exact inv_insert_existing s i task0
      ({ task0 with status := TaskStatus.complete }) h hl rfl
      ⟨hval0.1, hval0.2.1, hval0.2.2.1, hval0.2.2.2.1, hval0.2.2.2.2⟩

/-- incomplete_task preserves the store invariant. -/
theorem inv_incomplete (s : TodoStore) (i : Nat) (h : StoreInv s) :
    StoreInv (incomplete_task s i).2 := by
  cases hl : lookupTask s.tasks i with
  | none => rw [incomplete_notfound s i hl]; exact h
  | some task0 =>
    rw [incomplete_ok s i hl]
    have hval0 : TaskValid task0 := (h.2 _ (mem_of_lookup hl)).2.2
    exact inv_insert_existing s i task0
      ({ task0 with status := TaskStatus.incomplete }) h hl rfl
      ⟨hval0.1, hval0.2.1, hval0.2.2.1, hval0.2.2.2.1, hval0.2.2.2.2⟩

/-- Every operation preserves the store invariant. -/
theorem inv_applyOp (s : TodoStore) (op : Op) (h : StoreInv s) :
    StoreInv (applyOp s op) := by
  cases op with
  | add t dsc n => exact inv_add s t dsc n h
  | update i t2 d2 => exact inv_update s i t2 d2 h
  | delete i => exact inv_delete s i h
  | complete i => exact inv_complete s i h
  | incomplete i => exact inv_incomplete s i h

/-- The empty store satisfies the invariant. -/
theorem inv_init : StoreInv initStore :=
  ⟨List.Pairwise.nil, by intro p hp; simp [initStore] at hp⟩

/-- The invariant holds after every operation sequence from a store that
satisfies it. -/
theorem inv_runOps_aux (ops : List Op) : ∀ s : TodoStore, StoreInv s →
    StoreInv (runOps s ops) := by
  induction ops with
  | nil => intro s h; exact h
  | cons op rest ih => intro s h; exact ih (applyOp s op) (inv_applyOp s op h)

/-- The invariant holds in every reachable store. -/
theorem inv_runOps (ops : List Op) : StoreInv (runOps initStore ops) :=
  inv_runOps_aux ops initStore inv_init

/-- C9: in every reachable store, list_tasks returns exactly the tasks of
the store in insertion order, which is strictly increasing id order; the
empty store yields the empty sequence.  In this pure embedding list_tasks
returns no new store, so it has no side effect by construction. -/
theorem C9_list_all_in_order (ops : List Op) :
    List.Pairwise (fun a b => a.id < b.id) (list_tasks (runOps initStore ops)) ∧
    ((runOps initStore ops).tasks = [] →
      list_tasks (runOps initStore ops) = []) ∧
    (∀ t, t ∈ list_tasks (runOps initStore ops) ↔
      ∃ k, (k, t) ∈ (runOps initStore ops).tasks) := by
  obtain ⟨hpw, hmem⟩ := inv_runOps ops
  refine ⟨?_, ?_, ?_⟩
  · rw [List.pairwise_map] at hpw
    unfold list_tasks
    rw [List.pairwise_map]
    refine List.Pairwise.imp_of_mem ?_ hpw
    intro a b ha hb hlt
    rw [(hmem a ha).1, (hmem b hb).1]
    exact hlt
  · intro h
    unfold list_tasks
    rw [h]
    rfl
  · intro t
    unfold list_tasks
    constructor
    · intro ht
      rcases List.mem_map.mp ht with ⟨p, hp, hpt⟩
      refine ⟨p.1, ?_⟩
      rw [← hpt]
      rw [Prod.mk.eta]
      exact hp
    · rintro ⟨k, hk⟩
      exact List.mem_map.mpr ⟨(k, t), hk, rfl⟩

/-- C10: in every store reachable from the empty store, every stored task
has a title equal to its own trimmed form with length between 1 and 100 and
a description equal to its own trimmed form with length at most 500. -/
theorem C10_stored_tasks_wellformed (ops : List Op) (p : Nat × Task)
    (hp : p ∈ (runOps initStore ops).tasks) :
    p.2.title = pyStrip p.2.title ∧
    1 ≤ p.2.title.length ∧ p.2.title.length ≤ 100 ∧
    p.2.description = pyStrip p.2.description ∧
    p.2.description.length ≤ 500 :=
  ((inv_runOps ops).2 p hp).2.2

/-- C10 witness: the invariant read off at the single task created by one
add operation. -/
theorem C10_stored_tasks_wellformed_witness :
    ((1, taskOne) ∈ (runOps initStore [Op.add "a" none 0]).tasks) ∧
    (taskOne.title = pyStrip taskOne.title ∧
    1 ≤ taskOne.title.length ∧ taskOne.title.length ≤ 100 ∧
    taskOne.description = pyStrip taskOne.description ∧
    taskOne.description.length ≤ 500) :=
  ⟨by decide,
    C10_stored_tasks_wellformed [Op.add "a" none 0] (1, taskOne) (by decide)⟩

/-- C9 witness: the empty sequence on the empty store, and the membership
characterization at a concrete one-task store. -/
theorem C9_list_all_in_order_witness :
    ((runOps initStore []).tasks = [] ∧
      list_tasks (runOps initStore []) = []) ∧
    (taskOne ∈ list_tasks (runOps initStore [Op.add "a" none 0]) ↔
      ∃ k, (k, taskOne) ∈ (runOps initStore [Op.add "a" none 0]).tasks) :=
  ⟨⟨by decide, (C9_list_all_in_order []).2.1 (by decide)⟩,
    (C9_list_all_in_order [Op.add "a" none 0]).2.2 taskOne⟩

end TodoApp
